import Mathlib

/-!
Verification of the golog logging package (log.go): the fan-out writer
`MultiplePrint` over abstract sinks, the four-channel package registry with
its verbose gate and stored creation flags, and the public logging facade.

Sinks are the external collaborators (`Outputer` values, such as the standard
library loggers created by `golog.New`); a sink's observable behaviour on one
call is the error it returns, modelled by an oracle `errOf`.  The observable
behaviour of the package is the trace of sink invocations (which sink, at
which call depth, with which line) plus process exit.  Message rendering by
`fmt.Sprint` and `fmt.Sprintf` is external to the package, so facade
functions take the already-rendered line.
-/

namespace Golog

variable {α : Type}

/-- One call made on a sink: the sink invoked, the call depth passed to it,
and the line passed to it. -/
structure SinkCall (α : Type) where
  sink : α
  depth : Int
  msg : String

/-- `MultiplePrint` from log.go: an `Outputer` holding an ordered list of
sinks (`outs`). -/
structure MultiplePrint (α : Type) where
  outs : List α := []

/-- `CreateMultiplePrint` from log.go: wraps a single sink. -/
def CreateMultiplePrint (o : α) : MultiplePrint α := ⟨[o]⟩

/-- `MultiplePrint.Append` from log.go: `d.outs = append(d.outs, o)`. -/
def MultiplePrint.Append (d : MultiplePrint α) (o : α) : MultiplePrint α :=
  ⟨d.outs ++ [o]⟩

/-- Builds a `MultiplePrint` from a starting value by a sequence of `Append`
calls, one per element of `os`, in order. -/
def buildFrom (m : MultiplePrint α) (os : List α) : MultiplePrint α :=
  os.foldl MultiplePrint.Append m

/-- The loop body of `MultiplePrint.Output`: calls each sink in order with
the given depth and line; each sink's returned error (given by the oracle
`errOf`) is computed and discarded, exactly as the source discards the result
of `v.Output(i+1, s)`.  Returns the trace of sink calls made. -/
def outputLoop (errOf : α → Int → String → Option String) :
    List α → Int → String → List (SinkCall α)
  | [], _, _ => []
  | v :: rest, i, s =>
    let _res := errOf v i s
    ⟨v, i, s⟩ :: outputLoop errOf rest i s

/-- `MultiplePrint.Output` from log.go: takes the lock, calls every sink in
`outs` with depth `i+1` and line `s`, releases the lock, and returns `nil`.
Result: the trace of sink calls made and the returned error. -/
def MultiplePrint.Output (errOf : α → Int → String → Option String)
    (d : MultiplePrint α) (i : Int) (s : String) :
    List (SinkCall α) × Option String :=
  (outputLoop errOf d.outs (i + 1) s, none)

/-- Destination of a standard-library logger: standard output, or an open
file handle. -/
inductive Writer where
  | stdout
  | file (handle : Nat)

/-- A standard-library logger as built by `golog.New(w, prefix, flag)`: the
concrete sinks this package installs on its channels. -/
structure Sink where
  w : Writer
  pre : String
  flag : Nat

/-- `golog.New(w, prefix, flag)`: creates a logger sink. -/
def gologNew (w : Writer) (p : String) (f : Nat) : Sink := ⟨w, p, f⟩

/-- `Ldate` from log.go: the date in the local time zone (`1 << iota`). -/
def Ldate : Nat := 1

/-- `Ltime` from log.go: the time in the local time zone. -/
def Ltime : Nat := 2

/-- `Lmicroseconds` from log.go: microsecond resolution. -/
def Lmicroseconds : Nat := 4

/-- `Llongfile` from log.go: full file name and line number. -/
def Llongfile : Nat := 8

/-- `Lshortfile` from log.go: final file name element and line number. -/
def Lshortfile : Nat := 16

/-- `LUTC` from log.go: use UTC rather than the local time zone. -/
def LUTC : Nat := 32

/-- Modelled from the spec: `Lmsgprefix`, the optional
prefix-before-annotations toggle.  It is referenced by the repository's test
file but not declared in the sources provided; the spec lists it as one more
OR-combinable annotation flag bit, so it is the next power of two after
`LUTC`. -/
def Lmsgprefix : Nat := 64

/-- `LstdFlags` from log.go: `Ldate | Ltime`. -/
def LstdFlags : Nat := Ldate ||| Ltime

/-- The `I:` channel tag. -/
def tagI : String := "I:"

/-- The `D:` channel tag. -/
def tagD : String := "D:"

/-- The `W:` channel tag. -/
def tagW : String := "W:"

/-- The `C:` channel tag. -/
def tagC : String := "C:"

/-- The package-level mutable state of log.go: the `Verbose` gate, the stored
`createflags`, and the four channel bindings. -/
structure LogState where
  Verbose : Bool
  createflags : Nat
  Ilog : MultiplePrint Sink
  Dlog : MultiplePrint Sink
  Wlog : MultiplePrint Sink
  Flog : MultiplePrint Sink

/-- The initial package state from the `var` block of log.go. -/
def initState : LogState where
  Verbose := false
  createflags := LstdFlags ||| Lshortfile
  Ilog := CreateMultiplePrint (gologNew Writer.stdout tagI (LstdFlags ||| Lshortfile))
  Dlog := CreateMultiplePrint (gologNew Writer.stdout tagD (LstdFlags ||| Lshortfile))
  Wlog := CreateMultiplePrint (gologNew Writer.stdout tagW (LstdFlags ||| Lshortfile))
  Flog := CreateMultiplePrint (gologNew Writer.stdout tagC (LstdFlags ||| Lshortfile))

/-- `SetFlags` from log.go: stores the flags in `createflags` and recreates
all four channels, each with a single fresh stdout sink built with the given
flags. -/
def SetFlags (flags : Nat) (st : LogState) : LogState :=
  { st with
    createflags := flags
    Ilog := CreateMultiplePrint (gologNew Writer.stdout tagI flags)
    Dlog := CreateMultiplePrint (gologNew Writer.stdout tagD flags)
    Wlog := CreateMultiplePrint (gologNew Writer.stdout tagW flags)
    Flog := CreateMultiplePrint (gologNew Writer.stdout tagC flags) }

/-- `Reset` from log.go: sets every channel to the zero-value
`MultiplePrint`. -/
def Reset (st : LogState) : LogState :=
  { st with Ilog := ⟨[]⟩, Dlog := ⟨[]⟩, Wlog := ⟨[]⟩, Flog := ⟨[]⟩ }

/-- `os.O_CREATE` on linux. -/
def O_CREATE : Nat := 64

/-- `os.O_APPEND` on linux. -/
def O_APPEND : Nat := 1024

/-- `os.O_TRUNC` on linux. -/
def O_TRUNC : Nat := 512

/-- `os.O_EXCL` on linux. -/
def O_EXCL : Nat := 128

/-- `AppendFileWriter` from log.go.  The file system is abstracted as
`fs : name → flags → perm → Except error handle`, standing for `os.OpenFile`.
The function makes exactly one open request, with flag bits
`O_CREATE ||| O_APPEND` and permission mode `0o600`.  On failure the error is
returned and nothing else happens; on success a fresh file sink with the
fixed flags `LstdFlags ||| Lshortfile` is appended to each of the four
channels, all four sharing the one handle, and `nil` is returned. -/
def AppendFileWriter (fs : String → Nat → Nat → Except String Nat)
    (filename : String) (st : LogState) : LogState × Option String :=
  match fs filename (O_CREATE ||| O_APPEND) 0o600 with
  | Except.error e => (st, some e)
  | Except.ok fd =>
    ({ st with
        Ilog := st.Ilog.Append (gologNew (Writer.file fd) tagI (LstdFlags ||| Lshortfile))
        Dlog := st.Dlog.Append (gologNew (Writer.file fd) tagD (LstdFlags ||| Lshortfile))
        Wlog := st.Wlog.Append (gologNew (Writer.file fd) tagW (LstdFlags ||| Lshortfile))
        Flog := st.Flog.Append (gologNew (Writer.file fd) tagC (LstdFlags ||| Lshortfile)) },
      none)

/-- An observable event of a facade call: a write reaching a sink, or process
exit with a status code. -/
inductive Event where
  | write (c : SinkCall Sink)
  | exit (code : Nat)

/-- The sink writes produced by calling `Output(2, s)` on a channel, as every
facade function does. -/
def chanWrites (errOf : Sink → Int → String → Option String)
    (m : MultiplePrint Sink) (s : String) : List Event :=
  (m.Output errOf 2 s).1.map Event.write

/-- `Info` from log.go, modulo the external `fmt.Sprint` rendering: emits the
rendered line on the Info channel.  Result: events, new package state, and
whether the process exited. -/
def Info (errOf : Sink → Int → String → Option String) (st : LogState)
    (rendered : String) : List Event × LogState × Bool :=
  (chanWrites errOf st.Ilog rendered, st, false)

/-- `Debug` from log.go, modulo the external `fmt.Sprint` rendering: emits on
the Debug channel only when `Verbose` is true. -/
def Debug (errOf : Sink → Int → String → Option String) (st : LogState)
    (rendered : String) : List Event × LogState × Bool :=
  ((if st.Verbose then chanWrites errOf st.Dlog rendered else []), st, false)

/-- `Debugf` from log.go, modulo the external `fmt.Sprintf` rendering: emits
on the Debug channel only when `Verbose` is true. -/
def Debugf (errOf : Sink → Int → String → Option String) (st : LogState)
    (rendered : String) : List Event × LogState × Bool :=
  ((if st.Verbose then chanWrites errOf st.Dlog rendered else []), st, false)

/-- `Warning` from log.go, modulo the external `fmt.Sprint` rendering. -/
def Warning (errOf : Sink → Int → String → Option String) (st : LogState)
    (rendered : String) : List Event × LogState × Bool :=
  (chanWrites errOf st.Wlog rendered, st, false)

/-- `Fatal` from log.go, modulo the external `fmt.Sprint` rendering: writes
on the Fatal channel, then `os.Exit(1)`. -/
def Fatal (errOf : Sink → Int → String → Option String) (st : LogState)
    (rendered : String) : List Event × LogState × Bool :=
  (chanWrites errOf st.Flog rendered ++ [Event.exit 1], st, true)

/-- `Fatalf` from log.go, modulo the external `fmt.Sprintf` rendering: writes
on the Fatal channel, then `os.Exit(1)`. -/
def Fatalf (errOf : Sink → Int → String → Option String) (st : LogState)
    (rendered : String) : List Event × LogState × Bool :=
  (chanWrites errOf st.Flog rendered ++ [Event.exit 1], st, true)

/-- A caller-side program over the facade: each step is one facade call or a
write to the `Verbose` package variable, with messages already rendered. -/
inductive Op where
  | setVerbose (b : Bool)
  | info (s : String)
  | debug (s : String)
  | debugf (s : String)
  | warning (s : String)
  | fatal (s : String)
  | fatalf (s : String)

/-- One step of a caller-side program. -/
def step (errOf : Sink → Int → String → Option String) (st : LogState) :
    Op → List Event × LogState × Bool
  | Op.setVerbose b => ([], { st with Verbose := b }, false)
  | Op.info s => Info errOf st s
  | Op.debug s => Debug errOf st s
  | Op.debugf s => Debugf errOf st s
  | Op.warning s => Warning errOf st s
  | Op.fatal s => Fatal errOf st s
  | Op.fatalf s => Fatalf errOf st s

/-- Runs a caller-side program: events accumulate in order; once a step has
exited the process (Fatal/Fatalf), no later statement executes. -/
def run (errOf : Sink → Int → String → Option String) :
    LogState → List Op → List Event
  | _, [] => []
  | st, op :: rest =>
    match step errOf st op with
    | (evs, _, true) => evs
    | (evs, st2, false) => evs ++ run errOf st2 rest

/-- One sink call as a transformer of the package state: per the spec a sink
only renders and writes one line and reports an error; it does not touch this
package's registry. -/
def sinkEffect (errOf : Sink → Int → String → Option String) (v : Sink)
    (i : Int) (s : String) (st : LogState) :
    LogState × SinkCall Sink × Option String :=
  (st, ⟨v, i, s⟩, errOf v i s)

/-- The `Output` loop threading the package state through each sink call. -/
def outputLoopSt (errOf : Sink → Int → String → Option String) :
    List Sink → Int → String → LogState → LogState × List (SinkCall Sink)
  | [], _, _, st => (st, [])
  | v :: rest, i, s, st =>
    let r := sinkEffect errOf v i s st
    let r2 := outputLoopSt errOf rest i s r.1
    (r2.1, r.2.1 :: r2.2)

/-- `MultiplePrint.Output` as a transformer of the receiver and the package
state: the source body only reads `d.outs`, calls the sinks one by one, and
returns `nil`.  Result: receiver, package state, trace, returned error. -/
def MultiplePrint.OutputSt (errOf : Sink → Int → String → Option String)
    (d : MultiplePrint Sink) (st : LogState) (i : Int) (s : String) :
    MultiplePrint Sink × LogState × List (SinkCall Sink) × Option String :=
  let r := outputLoopSt errOf d.outs (i + 1) s st
  (d, r.1, r.2, none)

/-- A concrete file system on which every open request fails. -/
def errPermission : String := "permission denied"

/-- A file system refusing every open request, for exercising the failure
path of `AppendFileWriter`. -/
def failFS : String → Nat → Nat → Except String Nat :=
  fun _ _ _ => Except.error errPermission

/-- A file system granting every open request with handle `7`. -/
def okFS : String → Nat → Nat → Except String Nat :=
  fun _ _ _ => Except.ok 7

/-- A concrete file name. -/
def fname0 : String := "app.log"

/-- Another concrete file name. -/
def fname1 : String := "audit.log"

theorem outputLoop_eq_map (errOf : α → Int → String → Option String)
    (outs : List α) (i : Int) (s : String) :
    outputLoop errOf outs i s = outs.map (fun v => ⟨v, i, s⟩) := by
  induction outs with
  | nil => rfl
  | cons v rest ih => simp [outputLoop, ih]

theorem buildFrom_outs (m : MultiplePrint α) (os : List α) :
    (buildFrom m os).outs = m.outs ++ os := by
  induction os generalizing m with
  | nil => simp [buildFrom]
  | cons o rest ih =>
    show (buildFrom (m.Append o) rest).outs = _
    rw [ih]
    simp [MultiplePrint.Append]

theorem outputLoopSt_state (errOf : Sink → Int → String → Option String)
    (outs : List Sink) (i : Int) (s : String) (st : LogState) :
    (outputLoopSt errOf outs i s st).1 = st := by
  induction outs generalizing st with
  | nil => rfl
  | cons v rest ih => simp [outputLoopSt, sinkEffect, ih]

theorem outputLoopSt_calls (errOf : Sink → Int → String → Option String)
    (outs : List Sink) (i : Int) (s : String) (st : LogState) :
    (outputLoopSt errOf outs i s st).2 = outs.map (fun v => ⟨v, i, s⟩) := by
  induction outs generalizing st with
  | nil => rfl
  | cons v rest ih => simp [outputLoopSt, sinkEffect, ih]

/-- Claim C1: for every fan-out writer and every sequence of `Append` calls
that built its sink list, `Output(i, s)` invokes each sink exactly once, in
the exact order appended, passing each sink the same string `s` and depth
`i + 1`, whatever each sink returns. -/
theorem C1_output_fanout_in_append_order
    (errOf : α → Int → String → Option String) (m : MultiplePrint α)
    (os : List α) (i : Int) (s : String) :
    (buildFrom m os).Output errOf i s =
      ((m.outs ++ os).map (fun v => ⟨v, i + 1, s⟩), none) := by
  simp [MultiplePrint.Output, outputLoop_eq_map, buildFrom_outs]

/-- Claim C2: `Output(i, s)` returns the nil error whatever each sink's own
`Output` returns, and every sink is still invoked, in order, even when an
earlier one fails. -/
theorem C2_output_swallows_sink_errors
    (errOf : α → Int → String → Option String) (d : MultiplePrint α)
    (i : Int) (s : String) :
    (d.Output errOf i s).2 = none ∧
      (d.Output errOf i s).1.map SinkCall.sink = d.outs := by
  refine ⟨rfl, ?_⟩
  simp [MultiplePrint.Output, outputLoop_eq_map, Function.comp_def]

/-- Claim C3: `Debug` and `Debugf` reach the Debug channel exactly when
`Verbose` is true at the moment of the call: while false nothing is emitted
and the state is unchanged (nothing buffered, so later calls are unaffected),
and the first call made after `Verbose` is set true is emitted. -/
theorem C3_debug_gated_by_verbose
    (errOf : Sink → Int → String → Option String) (st : LogState)
    (s : String) (rest : List Op) :
    Debug errOf st s =
        ((if st.Verbose then chanWrites errOf st.Dlog s else []), st, false) ∧
      Debugf errOf st s =
        ((if st.Verbose then chanWrites errOf st.Dlog s else []), st, false) ∧
      run errOf st (Op.debug s :: rest) =
        (if st.Verbose then chanWrites errOf st.Dlog s else []) ++
          run errOf st rest ∧
      run errOf st (Op.debugf s :: rest) =
        (if st.Verbose then chanWrites errOf st.Dlog s else []) ++
          run errOf st rest ∧
      run errOf st (Op.setVerbose true :: Op.debug s :: rest) =
        chanWrites errOf st.Dlog s ++
          run errOf { st with Verbose := true } rest := by
  refine ⟨rfl, rfl, ?_, ?_, ?_⟩
  · cases hv : st.Verbose <;> simp [run, step, Debug, hv]
  · cases hv : st.Verbose <;> simp [run, step, Debugf, hv]
  · simp [run, step, Debug]

/-- Claim C4: when the open fails, `AppendFileWriter` returns that non-nil
error and the whole package state — in particular the sink lists of all four
channels — is exactly what it was before the call. -/
theorem C4_appendfilewriter_failure_atomic
    (fs : String → Nat → Nat → Except String Nat) (filename : String)
    (st : LogState) (e : String)
    (hopen : fs filename (O_CREATE ||| O_APPEND) 0o600 = Except.error e) :
    AppendFileWriter fs filename st = (st, some e) := by
  simp [AppendFileWriter, hopen]

/-- Witness for C4: a concrete file system refusing the open request. -/
theorem C4_appendfilewriter_failure_atomic_witness :
    failFS fname0 (O_CREATE ||| O_APPEND) 0o600 = Except.error errPermission ∧
      AppendFileWriter failFS fname0 initState = (initState, some errPermission) :=
  ⟨rfl, C4_appendfilewriter_failure_atomic failFS fname0 initState errPermission rfl⟩

/-- Claim C5: `SetFlags f` stores `f` in `createflags` and rebuilds all four
channels from scratch, each holding exactly one fresh default stdout sink
built with flags `f`; consequently no previously appended sink (file sinks
included) remains reachable from any channel. -/
theorem C5_setflags_rebuilds_channels (f : Nat) (st : LogState) :
    SetFlags f st =
      { Verbose := st.Verbose
        createflags := f
        Ilog := ⟨[gologNew Writer.stdout tagI f]⟩
        Dlog := ⟨[gologNew Writer.stdout tagD f]⟩
        Wlog := ⟨[gologNew Writer.stdout tagW f]⟩
        Flog := ⟨[gologNew Writer.stdout tagC f]⟩ } := rfl

/-- Claim C6: after `Reset`, every channel's writer has an empty sink list,
and an `Output` call on any channel invokes no sink and returns the nil
error. -/
theorem C6_reset_silences_all_channels
    (st : LogState) (errOf : Sink → Int → String → Option String)
    (i : Int) (s : String) :
    (Reset st).Ilog.outs = [] ∧ (Reset st).Dlog.outs = [] ∧
      (Reset st).Wlog.outs = [] ∧ (Reset st).Flog.outs = [] ∧
      (Reset st).Ilog.Output errOf i s = ([], none) ∧
      (Reset st).Dlog.Output errOf i s = ([], none) ∧
      (Reset st).Wlog.Output errOf i s = ([], none) ∧
      (Reset st).Flog.Output errOf i s = ([], none) :=
  ⟨rfl, rfl, rfl, rfl, rfl, rfl, rfl, rfl⟩

/-- Claim C7: `Fatal` and `Fatalf` first write the rendered line on the Fatal
channel's sinks and then unconditionally exit with status 1; statements after
the call never execute, whatever they are. -/
theorem C7_fatal_writes_then_exits
    (errOf : Sink → Int → String → Option String) (st : LogState)
    (s : String) (rest : List Op) :
    run errOf st (Op.fatal s :: rest) =
        chanWrites errOf st.Flog s ++ [Event.exit 1] ∧
      run errOf st (Op.fatalf s :: rest) =
        chanWrites errOf st.Flog s ++ [Event.exit 1] := by
  constructor <;> rfl

/-- Claim C8: on success `AppendFileWriter` appends to each of the four
channels exactly one new sink on the shared handle, with the fixed annotation
flags `LstdFlags ||| Lshortfile` independent of the configured `createflags`;
the single open request it makes uses flag bits `O_CREATE ||| O_APPEND` (no
truncation, not exclusive) and permission mode `0o600`. -/
theorem C8_appendfilewriter_success
    (fs : String → Nat → Nat → Except String Nat) (filename : String)
    (st : LogState) (fd : Nat)
    (hopen : fs filename (O_CREATE ||| O_APPEND) 0o600 = Except.ok fd) :
    AppendFileWriter fs filename st =
      ({ st with
          Ilog := st.Ilog.Append (gologNew (Writer.file fd) tagI (LstdFlags ||| Lshortfile))
          Dlog := st.Dlog.Append (gologNew (Writer.file fd) tagD (LstdFlags ||| Lshortfile))
          Wlog := st.Wlog.Append (gologNew (Writer.file fd) tagW (LstdFlags ||| Lshortfile))
          Flog := st.Flog.Append (gologNew (Writer.file fd) tagC (LstdFlags ||| Lshortfile)) },
        none) ∧
      (O_CREATE ||| O_APPEND) &&& O_TRUNC = 0 ∧
      (O_CREATE ||| O_APPEND) &&& O_EXCL = 0 := by
  refine ⟨?_, by decide, by decide⟩
  simp [AppendFileWriter, hopen]

/-- Witness for C8: a concrete file system granting the open request with
handle `7`. -/
theorem C8_appendfilewriter_success_witness :
    okFS fname1 (O_CREATE ||| O_APPEND) 0o600 = Except.ok 7 ∧
      (AppendFileWriter okFS fname1 initState =
        ({ initState with
            Ilog := initState.Ilog.Append
              (gologNew (Writer.file 7) tagI (LstdFlags ||| Lshortfile))
            Dlog := initState.Dlog.Append
              (gologNew (Writer.file 7) tagD (LstdFlags ||| Lshortfile))
            Wlog := initState.Wlog.Append
              (gologNew (Writer.file 7) tagW (LstdFlags ||| Lshortfile))
            Flog := initState.Flog.Append
              (gologNew (Writer.file 7) tagC (LstdFlags ||| Lshortfile)) },
          none) ∧
        (O_CREATE ||| O_APPEND) &&& O_TRUNC = 0 ∧
        (O_CREATE ||| O_APPEND) &&& O_EXCL = 0) :=
  ⟨rfl, C8_appendfilewriter_success okFS fname1 initState 7 rfl⟩

/-- Claim C9: the annotation flags are pairwise distinct powers of two —
date, time, microseconds, long file, short file, UTC, plus the
prefix-before-annotations toggle — combined by bitwise OR; the package
default is date+time plus short file in the local time zone (UTC bit
clear). -/
theorem C9_flag_bits :
    Ldate = 2 ^ 0 ∧ Ltime = 2 ^ 1 ∧ Lmicroseconds = 2 ^ 2 ∧
      Llongfile = 2 ^ 3 ∧ Lshortfile = 2 ^ 4 ∧ LUTC = 2 ^ 5 ∧
      Lmsgprefix = 2 ^ 6 ∧
      [Ldate, Ltime, Lmicroseconds, Llongfile, Lshortfile, LUTC,
        Lmsgprefix].Nodup ∧
      LstdFlags = Ldate ||| Ltime ∧
      initState.createflags = Ldate ||| Ltime ||| Lshortfile ∧
      initState.createflags &&& LUTC = 0 := by
  decide

/-- Claim C10: `Output` leaves the receiver's sink list unchanged and leaves
the whole package state — the four channel bindings, `createflags` and
`Verbose` — unchanged; its only effects are the sinks' own write calls, and
it returns the nil error. -/
theorem C10_output_frame
    (errOf : Sink → Int → String → Option String) (d : MultiplePrint Sink)
    (st : LogState) (i : Int) (s : String) :
    (d.OutputSt errOf st i s).1.outs = d.outs ∧
      (d.OutputSt errOf st i s).2.1 = st ∧
      (d.OutputSt errOf st i s).2.2.1 = d.outs.map (fun v => ⟨v, i + 1, s⟩) ∧
      (d.OutputSt errOf st i s).2.2.2 = none := by
  refine ⟨rfl, ?_, ?_, rfl⟩
  · simpa [MultiplePrint.OutputSt] using outputLoopSt_state errOf d.outs (i + 1) s st
  · simpa [MultiplePrint.OutputSt] using outputLoopSt_calls errOf d.outs (i + 1) s st

end Golog
